import Mathlib

/-!
# Verification of the BEP-Model tidal formula library

Shallow embedding of the two source files
`model/channel_properties/channel_properties.py` and
`model/tide/tidefrequency.py`, together with proofs settling the
specification claims about them.

Modelling conventions:
* Python `float` values are modelled as real numbers (`ℝ`).
* Python `complex` / `np.complex128` values are modelled as `ℂ`.
* Operations whose floating-point result can be non-finite (`np.sqrt` of a
  negative argument gives `nan`; a NumPy scalar division by zero gives
  `inf`/`nan` with a warning, without raising), or which can raise
  (plain Python float division by `0.0` raises `ZeroDivisionError`), are
  modelled with the explicit result type `FloatResult` below.
* NumPy vectorised application over an array of times is modelled as the
  corresponding chain of `List.map`s.
-/

open scoped Real

noncomputable section

/-- Outcome of a floating-point computation in the source:
an ordinary finite value, a silent non-finite result (`inf`/`nan`,
as produced by NumPy operations), or a raised Python exception
(such as `ZeroDivisionError` from plain float division by zero). -/
inductive FloatResult where
  | val : ℝ → FloatResult
  | nonFinite : FloatResult
  | raised : FloatResult
  deriving DecidableEq

/-- Module-level constant `g = 9.81` from `channel_properties.py`. -/
def g : ℝ := 9.81

/-- The stored fields of a constructed `ChannelProperties` instance
(`channel_properties.py`, `__init__`). -/
structure ChannelProperties where
  width : ℝ
  height : ℝ
  length : ℝ
  tidal_averaged_flow : ℝ
  drag_coefficient : ℝ
  tidal_velocity_amplitude : ℝ
  diffusion_prefactor : ℝ

/-- Default value of the `diffusion_prefactor` constructor argument. -/
def defaultDiffusionPrefactor : ℝ := 0.0125

/-- Constructor `ChannelProperties.__init__`: stores the six unchecked parameters, and
raises `ValueError("Diffusion prefactor out of range")` when
`diffusion_prefactor < 0.005 or diffusion_prefactor > 0.020`. -/
def ChannelProperties.make (width height length taf cd u p : ℝ) :
    Except String ChannelProperties :=
  if p < 0.005 ∨ 0.020 < p then
    Except.error "Diffusion prefactor out of range"
  else
    Except.ok ⟨width, height, length, taf, cd, u, p⟩

/-- Derived property `ChannelProperties.frictionless_wave_velocity`:
`np.sqrt(g * self.height)`.  `np.sqrt` of a negative float is `nan`
(non-finite), otherwise the real square root. -/
def ChannelProperties.frictionless_wave_velocity (c : ChannelProperties) :
    FloatResult :=
  if g * c.height < 0 then FloatResult.nonFinite
  else FloatResult.val (Real.sqrt (g * c.height))

/-- Derived property `ChannelProperties.friction_factor`:
`(self.drag_coefficient / self.height) * (8 * self.tidal_velocity_amplitude / (3 * np.pi))`.
The first division is plain Python float division, which raises
`ZeroDivisionError` when `height == 0`; otherwise every operation is an
ordinary finite real computation (the second denominator `3 * np.pi` is
never zero). -/
def ChannelProperties.friction_factor (c : ChannelProperties) : FloatResult :=
  if c.height = 0 then FloatResult.raised
  else FloatResult.val
    ((c.drag_coefficient / c.height) * (8 * c.tidal_velocity_amplitude / (3 * π)))

/-- Derived property `ChannelProperties.effective_diffusion_coefficient`:
`self.diffusion_prefactor * ((self.width**2) * self.tidal_velocity_amplitude) / (np.sqrt(self.drag_coefficient) * self.height)`.
`np.sqrt` of a negative drag coefficient is `nan`, which propagates to a
non-finite result; the division is by the NumPy scalar
`np.sqrt(drag) * height`, so a zero denominator yields `inf`/`nan`
(non-finite) with a warning rather than an exception. -/
def ChannelProperties.effective_diffusion_coefficient (c : ChannelProperties) :
    FloatResult :=
  if c.drag_coefficient < 0 then FloatResult.nonFinite
  else if Real.sqrt c.drag_coefficient * c.height = 0 then FloatResult.nonFinite
  else FloatResult.val
    (c.diffusion_prefactor * ((c.width ^ 2) * c.tidal_velocity_amplitude) /
      (Real.sqrt c.drag_coefficient * c.height))

/-- The three dataclass fields of `TideFrequency` (`tidefrequency.py`). -/
structure TideFrequency where
  period_h : ℝ
  amplitude : ℝ
  phase : ℝ

/-- Derived property `TideFrequency.complex_amplitude`:
`self.amplitude * np.cos(self.phase) + 1j * self.amplitude * np.sin(self.phase)`. -/
def TideFrequency.complex_amplitude (t : TideFrequency) : ℂ :=
  ((t.amplitude * Real.cos t.phase : ℝ) : ℂ) +
    Complex.I * ((t.amplitude * Real.sin t.phase : ℝ) : ℂ)

/-- Derived property `TideFrequency.angular_frequency`: `0` when `period_h == 0`, else
`2 * np.pi / (self.period_h * 60 * 60)`. -/
def TideFrequency.angular_frequency (t : TideFrequency) : ℝ :=
  if t.period_h = 0 then 0 else 2 * π / (t.period_h * 60 * 60)

/-- Derived property `TideFrequency.frequency`: `0` when `period_h == 0`, else
`1 / (self.period_h * 60 * 60)`. -/
def TideFrequency.frequency (t : TideFrequency) : ℝ :=
  if t.period_h = 0 then 0 else 1 / (t.period_h * 60 * 60)

/-- Function `np.sign` on a real scalar: `1` for positive, `-1` for negative,
`0` for zero. -/
def npSign (x : ℝ) : ℝ :=
  if 0 < x then 1 else if x < 0 then -1 else 0

/-- Value bound by the amplitude line of `from_complex_amplitude`
(`amplitude = np.sign(np.real(complex_amplitude)) * np.abs(complex_amplitude)`),
which executes before the phase line raises. -/
def fromComplexAmplitude_amplitude (z : ℂ) : ℝ :=
  npSign z.re * Complex.abs z

/-- Classmethod `TideFrequency.from_complex_amplitude(complex_amplitude, period)`
on a scalar complex argument (a Python `complex` or the `np.complex128` that
`complex_amplitude` produces).  The amplitude line computes
`np.sign(np.real(z)) * np.abs(z)` (see `fromComplexAmplitude_amplitude`); the
phase line `np.arctan(np.imag(z), np.real(z))` then passes the scalar
`np.real(z)` as the `out` argument of the unary ufunc `np.arctan`, which
raises `TypeError` for every scalar input, so the method never returns a
`TideFrequency`. -/
def TideFrequency.from_complex_amplitude (z : ℂ) (period : ℝ) :
    Except String TideFrequency :=
  Except.error "TypeError: return arrays must be of ArrayType"

/-- Function `height_from_tide(tide, t)` at a scalar time:
`np.real(tide.complex_amplitude * np.exp(1j * tide.angular_frequency * t))`. -/
def height_from_tide (tide : TideFrequency) (t : ℝ) : ℝ :=
  (tide.complex_amplitude *
    Complex.exp (Complex.I * (tide.angular_frequency : ℂ) * (t : ℂ))).re

/-- Function `height_from_tide(tide, t)` applied to an array of times: each NumPy
operation of the source line acts elementwise, giving the chain of maps
`t ↦ 1j*ω*t`, then `np.exp`, then multiplication by the complex amplitude,
then `np.real`. -/
def height_from_tide_vec (tide : TideFrequency) (ts : List ℝ) : List ℝ :=
  ((((ts.map
      (fun (t : ℝ) => Complex.I * (tide.angular_frequency : ℂ) * (t : ℂ))).map
      Complex.exp).map
    (fun w => tide.complex_amplitude * w)).map Complex.re)

/-- Memoisation cells written by `functools.cached_property` into a
`TideFrequency` instance dictionary. -/
structure TideCache where
  ca : Option ℂ
  af : Option ℝ
  fr : Option ℝ

/-- A live `TideFrequency` Python object: its three dataclass fields plus
the `cached_property` cells (empty at construction, filled on first
access). -/
structure TideObj where
  data : TideFrequency
  cache : TideCache

/-- A freshly constructed `TideFrequency` object: no cache entry filled. -/
def TideObj.new (t : TideFrequency) : TideObj := ⟨t, ⟨none, none, none⟩⟩

/-- Attribute access `obj.complex_amplitude` with `cached_property`
semantics: return the cached value when present, otherwise compute, store
and return it. -/
def TideObj.readComplexAmplitude (o : TideObj) : ℂ × TideObj :=
  match o.cache.ca with
  | some v => (v, o)
  | none =>
      (o.data.complex_amplitude,
        ⟨o.data, ⟨some o.data.complex_amplitude, o.cache.af, o.cache.fr⟩⟩)

/-- Attribute access `obj.angular_frequency` with `cached_property`
semantics. -/
def TideObj.readAngularFrequency (o : TideObj) : ℝ × TideObj :=
  match o.cache.af with
  | some v => (v, o)
  | none =>
      (o.data.angular_frequency,
        ⟨o.data, ⟨o.cache.ca, some o.data.angular_frequency, o.cache.fr⟩⟩)

/-- Attribute access `obj.frequency` with `cached_property` semantics. -/
def TideObj.readFrequency (o : TideObj) : ℝ × TideObj :=
  match o.cache.fr with
  | some v => (v, o)
  | none =>
      (o.data.frequency,
        ⟨o.data, ⟨o.cache.ca, o.cache.af, some o.data.frequency⟩⟩)

/-- The `__eq__` generated by `@dataclass`: comparison of the tuples of
declared fields `(period_h, amplitude, phase)`; `cached_property` values
live in the instance dictionary but are not dataclass fields, so they do
not participate. -/
def dataclassEq (a b : TideObj) : Prop :=
  (a.data.period_h, a.data.amplitude, a.data.phase) =
    (b.data.period_h, b.data.amplitude, b.data.phase)

end

/-! ## Helper lemmas -/

lemma complex_amplitude_re (t : TideFrequency) :
    t.complex_amplitude.re = t.amplitude * Real.cos t.phase := by
  simp only [TideFrequency.complex_amplitude, Complex.add_re, Complex.ofReal_re,
    Complex.mul_re, Complex.I_re, Complex.I_im, Complex.ofReal_im]
  ring

lemma complex_amplitude_im (t : TideFrequency) :
    t.complex_amplitude.im = t.amplitude * Real.sin t.phase := by
  simp only [TideFrequency.complex_amplitude, Complex.add_im, Complex.ofReal_im,
    Complex.mul_im, Complex.I_re, Complex.I_im, Complex.ofReal_re]
  ring

lemma complex_amplitude_abs (t : TideFrequency) :
    Complex.abs t.complex_amplitude = |t.amplitude| := by
  rw [Complex.abs_apply, Complex.normSq_apply, complex_amplitude_re,
    complex_amplitude_im]
  have h : t.amplitude * Real.cos t.phase * (t.amplitude * Real.cos t.phase) +
      t.amplitude * Real.sin t.phase * (t.amplitude * Real.sin t.phase) =
      t.amplitude ^ 2 := by
    have hs := Real.sin_sq_add_cos_sq t.phase
    nlinarith [hs]
  rw [h, Real.sqrt_sq_eq_abs]

lemma npSign_pos {x : ℝ} (h : 0 < x) : npSign x = 1 := by
  simp [npSign, h]

lemma npSign_neg {x : ℝ} (h : x < 0) : npSign x = -1 := by
  rw [npSign, if_neg (by linarith), if_pos h]

lemma npSign_zero : npSign 0 = 0 := by
  simp [npSign]

/-- The sign-collapse rule: `sign(A·c) · |A| = A` holds exactly when `A = 0`
or `c > 0`. -/
lemma npSign_mul_abs_eq_self_iff (A c : ℝ) :
    npSign (A * c) * |A| = A ↔ (A = 0 ∨ 0 < c) := by
  rcases lt_trichotomy A 0 with hA | hA | hA
  · rcases lt_trichotomy c 0 with hc | hc | hc
    · rw [npSign_pos (mul_pos_of_neg_of_neg hA hc), one_mul, abs_of_neg hA]
      constructor
      · intro h; exfalso; linarith
      · rintro (h | h) <;> exfalso <;> linarith
    · rw [hc, mul_zero, npSign_zero, zero_mul]
      constructor
      · intro h; exfalso; linarith
      · rintro (h | h) <;> exfalso <;> linarith
    · rw [npSign_neg (mul_neg_of_neg_of_pos hA hc), abs_of_neg hA]
      constructor
      · intro _; exact Or.inr hc
      · intro _; ring
  · subst hA
    simp [npSign]
  · rcases lt_trichotomy c 0 with hc | hc | hc
    · rw [npSign_neg (mul_neg_of_pos_of_neg hA hc), abs_of_pos hA]
      constructor
      · intro h; exfalso; linarith
      · rintro (h | h) <;> exfalso <;> linarith
    · rw [hc, mul_zero, npSign_zero, zero_mul]
      constructor
      · intro h; exfalso; linarith
      · rintro (h | h) <;> exfalso <;> linarith
    · rw [npSign_pos (mul_pos hA hc), one_mul, abs_of_pos hA]
      exact ⟨fun _ => Or.inr hc, fun _ => rfl⟩

/-! ## Claim theorems -/

/-- Claim C10: for every `TideFrequency`, including the `period_h = 0` special
case, `angular_frequency = 2π · frequency`: the two zero-guard branches and
the two division formulas are mutually consistent. -/
theorem claim10_angular_eq_two_pi_mul_frequency (t : TideFrequency) :
    t.angular_frequency = 2 * π * t.frequency := by
  unfold TideFrequency.angular_frequency TideFrequency.frequency
  by_cases h : t.period_h = 0
  · simp [h]
  · rw [if_neg h, if_neg h, mul_one_div]

/-- Claim C2: `angular_frequency` is exactly `0` when `period_h = 0` and
`2π / (period_h · 3600)` otherwise, and `frequency` is exactly `0` when
`period_h = 0` and `1 / (period_h · 3600)` otherwise, for any amplitude and
phase. -/
theorem claim2_frequency_formulas (t : TideFrequency) :
    (t.period_h = 0 → t.angular_frequency = 0 ∧ t.frequency = 0) ∧
    (t.period_h ≠ 0 →
      t.angular_frequency = 2 * π / (t.period_h * 3600) ∧
      t.frequency = 1 / (t.period_h * 3600)) := by
  constructor
  · intro h
    constructor <;>
      simp [TideFrequency.angular_frequency, TideFrequency.frequency, h]
  · intro h
    constructor <;>
    · simp only [TideFrequency.angular_frequency, TideFrequency.frequency,
        if_neg h]
      ring

/-- Witness for C2 at the concrete constituents `(0, 1, 2)` and
`(12, 2, 0)`. -/
theorem claim2_frequency_formulas_witness :
    (TideFrequency.mk 0 1 2).angular_frequency = 0 ∧
    (TideFrequency.mk 12 2 0).angular_frequency = 2 * π / (12 * 3600) := by
  refine ⟨((claim2_frequency_formulas ⟨0, 1, 2⟩).1 rfl).1, ?_⟩
  have h := ((claim2_frequency_formulas ⟨12, 2, 0⟩).2 (by norm_num)).1
  simpa using h

/-- Claim C1: construction succeeds (storing exactly the given parameters) for
every `diffusion_prefactor` in `[0.005, 0.020]`, boundaries included, and
fails with the validation error for every value strictly outside; no other
constructor parameter is range-checked (all are universally quantified). -/
theorem claim1_constructor_validation (w h l f cd u p : ℝ) :
    (0.005 ≤ p ∧ p ≤ 0.020 →
      ChannelProperties.make w h l f cd u p = Except.ok ⟨w, h, l, f, cd, u, p⟩) ∧
    (p < 0.005 ∨ 0.020 < p →
      ChannelProperties.make w h l f cd u p =
        Except.error "Diffusion prefactor out of range") := by
  constructor
  · rintro ⟨h1, h2⟩
    unfold ChannelProperties.make
    rw [if_neg]
    push_neg
    exact ⟨h1, h2⟩
  · intro hout
    unfold ChannelProperties.make
    rw [if_pos hout]

/-- Witness for C1: the boundary value `0.005` is accepted and the value `1`
is rejected, at concrete parameters. -/
theorem claim1_constructor_validation_witness :
    ChannelProperties.make 1 2 3 4 5 6 0.005 =
      Except.ok ⟨1, 2, 3, 4, 5, 6, 0.005⟩ ∧
    ChannelProperties.make 1 2 3 4 5 6 1 =
      Except.error "Diffusion prefactor out of range" :=
  ⟨(claim1_constructor_validation 1 2 3 4 5 6 0.005).1 (by norm_num),
   (claim1_constructor_validation 1 2 3 4 5 6 1).2 (by norm_num)⟩

/-- Claim C4, code evaluated at the failing inputs: for the scalar complex
input `-1` (and equally the purely imaginary `5i`) with period `12`,
`from_complex_amplitude` raises `TypeError` at the phase line — the scalar
`np.real(z)` is passed as the unary ufunc's `out` argument — instead of
returning a `TideFrequency` as the claim states; the amplitude line that
executes before the raise does compute `sign(Re z)·|z|`, which is `0` for
the purely imaginary input and `√(Re² + Im²)`-based in general. -/
theorem claim4_raises_at_failing_input :
    TideFrequency.from_complex_amplitude (-1 : ℂ) 12 =
      Except.error "TypeError: return arrays must be of ArrayType" ∧
    TideFrequency.from_complex_amplitude (5 * Complex.I) 12 =
      Except.error "TypeError: return arrays must be of ArrayType" ∧
    fromComplexAmplitude_amplitude (5 * Complex.I) = 0 ∧
    fromComplexAmplitude_amplitude (-1 : ℂ) =
      npSign ((-1 : ℂ)).re *
        Real.sqrt (((-1 : ℂ)).re * ((-1 : ℂ)).re + ((-1 : ℂ)).im * ((-1 : ℂ)).im) := by
  refine ⟨rfl, rfl, ?_, ?_⟩
  · simp [fromComplexAmplitude_amplitude, npSign]
  · rw [fromComplexAmplitude_amplitude, Complex.abs_apply, Complex.normSq_apply]

/-- Claim C3, counterexample: at `(period, amplitude, phase) = (12, -1, 0)`
the complex amplitude is the scalar `-1`, with strictly negative real part,
yet the round trip does not yield a `TideFrequency` whose amplitude differs
from the original as the claim asserts: the call raises `TypeError` at the
phase line and yields nothing at all — and even the amplitude value computed
by the sign-collapse line before the raise equals the original amplitude
`-1` exactly. -/
theorem claim3_counterexample :
    ((TideFrequency.mk 12 (-1) 0).complex_amplitude).re < 0 ∧
    TideFrequency.from_complex_amplitude
        (TideFrequency.mk 12 (-1) 0).complex_amplitude 12 =
      Except.error "TypeError: return arrays must be of ArrayType" ∧
    fromComplexAmplitude_amplitude
        (TideFrequency.mk 12 (-1) 0).complex_amplitude =
      (TideFrequency.mk 12 (-1) 0).amplitude := by
  have hre : ((TideFrequency.mk 12 (-1) 0).complex_amplitude).re = -1 := by
    rw [complex_amplitude_re]
    norm_num
  have habs :
      Complex.abs (TideFrequency.mk 12 (-1) 0).complex_amplitude = 1 := by
    rw [complex_amplitude_abs]
    norm_num
  refine ⟨?_, rfl, ?_⟩
  · rw [hre]; norm_num
  · rw [fromComplexAmplitude_amplitude, hre, habs,
      npSign_neg (by norm_num : (-1 : ℝ) < 0)]
    norm_num

/-- Claim C3, amended: for every `(period, amplitude, phase)`, feeding the
(scalar) complex amplitude back through `from_complex_amplitude` with the
same period raises `TypeError` at the phase line and yields no
`TideFrequency` at all; the amplitude value computed by the sign-collapse
line before the raise reproduces the original amplitude exactly when the
amplitude is `0` or `cos(phase) > 0` — a condition equivalent to neither
`Re(complex_amplitude) ≥ 0` nor its negation. -/
theorem claim3_round_trip_amended (p A φ : ℝ) :
    TideFrequency.from_complex_amplitude
        (TideFrequency.mk p A φ).complex_amplitude p =
      Except.error "TypeError: return arrays must be of ArrayType" ∧
    (fromComplexAmplitude_amplitude
        (TideFrequency.mk p A φ).complex_amplitude = A ↔
      (A = 0 ∨ 0 < Real.cos φ)) := by
  refine ⟨rfl, ?_⟩
  rw [fromComplexAmplitude_amplitude, complex_amplitude_re,
    complex_amplitude_abs]
  exact npSign_mul_abs_eq_self_iff A (Real.cos φ)

/-- Claim C5: `height_from_tide` at a scalar time is
`Re(complex_amplitude · e^(i·angular_frequency·t))`, and at the constituent
`(12, 2, 0)` and time `0` it evaluates to exactly `2`. -/
theorem claim5_height_from_tide :
    (∀ (tide : TideFrequency) (t : ℝ),
      height_from_tide tide t =
        (tide.complex_amplitude *
          Complex.exp (Complex.I * (tide.angular_frequency : ℂ) * (t : ℂ))).re) ∧
    height_from_tide (TideFrequency.mk 12 2 0) 0 = 2 := by
  refine ⟨fun tide t => rfl, ?_⟩
  unfold height_from_tide
  have h0 : Complex.I *
      (((TideFrequency.mk 12 2 0).angular_frequency : ℝ) : ℂ) * ((0 : ℝ) : ℂ) =
      0 := by
    simp
  rw [h0, Complex.exp_zero, mul_one, complex_amplitude_re]
  norm_num

/-- Claim C6: the vectorised application of `height_from_tide` to a list of
times has the same length as the input and its `k`-th element is the scalar
application at the `k`-th time, for every index `k`. -/
theorem claim6_vectorised_elementwise (tide : TideFrequency) (ts : List ℝ) :
    (height_from_tide_vec tide ts).length = ts.length ∧
    (∀ k : ℕ, (height_from_tide_vec tide ts)[k]? =
      Option.map (fun t => height_from_tide tide t) ts[k]?) := by
  constructor
  · simp only [height_from_tide_vec, List.length_map]
  · intro k
    simp only [height_from_tide_vec, List.getElem?_map, Option.map_map]
    rfl

/-- Claim C7: `frictionless_wave_velocity` is `√(g·height)` (with `g = 9.81`)
whenever the radicand is defined (nonnegative height), is strictly
increasing in the height for positive heights, equals exactly `9.81` when
`height = 9.81`, and is within `10⁻³` of `3.1321` when `height = 1`. -/
theorem claim7_frictionless_wave_velocity :
    (∀ c : ChannelProperties, 0 ≤ c.height →
      c.frictionless_wave_velocity = FloatResult.val (Real.sqrt (g * c.height))) ∧
    (∀ c₁ c₂ : ChannelProperties, 0 < c₁.height → c₁.height < c₂.height →
      Real.sqrt (g * c₁.height) < Real.sqrt (g * c₂.height)) ∧
    (∀ c : ChannelProperties, c.height = 9.81 →
      c.frictionless_wave_velocity = FloatResult.val 9.81) ∧
    (∀ c : ChannelProperties, c.height = 1 →
      c.frictionless_wave_velocity = FloatResult.val (Real.sqrt (g * 1)) ∧
      |Real.sqrt (g * 1) - 3.1321| < 1 / 1000) := by
  have hg : (0 : ℝ) < g := by norm_num [g]
  refine ⟨?_, ?_, ?_, ?_⟩
  · intro c h
    unfold ChannelProperties.frictionless_wave_velocity
    rw [if_neg (not_lt.mpr (mul_nonneg hg.le h))]
  · intro c₁ c₂ h1 h12
    exact Real.sqrt_lt_sqrt (mul_nonneg hg.le h1.le)
      (mul_lt_mul_of_pos_left h12 hg)
  · intro c h
    unfold ChannelProperties.frictionless_wave_velocity
    rw [h, if_neg (by norm_num [g]),
      show g * (9.81 : ℝ) = 9.81 * 9.81 from by norm_num [g],
      Real.sqrt_mul_self (by norm_num : (0 : ℝ) ≤ 9.81)]
  · intro c h
    constructor
    · unfold ChannelProperties.frictionless_wave_velocity
      rw [h, if_neg (by norm_num [g])]
    · have h1 : Real.sqrt (g * 1) < 3.1321 := by
        rw [show g * (1 : ℝ) = 9.81 from by norm_num [g]]
        exact (Real.sqrt_lt' (by norm_num : (0 : ℝ) < 3.1321)).mpr
          (by norm_num : (9.81 : ℝ) < 3.1321 ^ 2)
      have h2 : (3.1320 : ℝ) < Real.sqrt (g * 1) := by
        rw [show g * (1 : ℝ) = 9.81 from by norm_num [g]]
        exact (Real.lt_sqrt (by norm_num : (0 : ℝ) ≤ 3.1320)).mpr
          (by norm_num : (3.1320 : ℝ) ^ 2 < 9.81)
      rw [abs_sub_lt_iff]
      constructor <;> linarith

/-- Witness for C7 at channels of heights `1` and `9.81`. -/
theorem claim7_frictionless_wave_velocity_witness :
    Real.sqrt (g * 1) < Real.sqrt (g * 9.81) ∧
    (ChannelProperties.mk 1 9.81 1 1 1 1 0.0125).frictionless_wave_velocity =
      FloatResult.val 9.81 ∧
    |Real.sqrt (g * 1) - 3.1321| < 1 / 1000 :=
  ⟨claim7_frictionless_wave_velocity.2.1
      (ChannelProperties.mk 1 1 1 1 1 1 0.0125)
      (ChannelProperties.mk 1 9.81 1 1 1 1 0.0125)
      (by norm_num) (by norm_num),
   claim7_frictionless_wave_velocity.2.2.1
      (ChannelProperties.mk 1 9.81 1 1 1 1 0.0125) rfl,
   (claim7_frictionless_wave_velocity.2.2.2
      (ChannelProperties.mk 1 1 1 1 1 1 0.0125) rfl).2⟩

/-- Claim C8, counterexample: at the constructible channel with `height = 0`
(all other parameters `1`, prefactor in range), accessing `friction_factor`
raises `ZeroDivisionError` (plain Python float division by `0.0`), so a
derived-property access does raise, and this input produces an exception
rather than a non-finite value. -/
theorem claim8_counterexample :
    (ChannelProperties.mk 1 0 1 1 1 1 0.0125).friction_factor =
      FloatResult.raised := by
  simp [ChannelProperties.friction_factor]

/-- Claim C8, amended: the only raising derived access is `friction_factor`,
exactly at `height = 0`; `frictionless_wave_velocity` is non-finite exactly
for negative height; `effective_diffusion_coefficient` is non-finite exactly
for nonpositive drag coefficient or zero height and never raises; a nonzero
height gives `friction_factor` a finite value (finite, not non-finite, even
for negative height); and a negative period gives the finite, strictly
negative angular frequency `2π/(period·3600)` rather than a non-finite
value. -/
theorem claim8_hazards_amended :
    (∀ c : ChannelProperties,
      (c.friction_factor = FloatResult.raised ↔ c.height = 0) ∧
      (c.frictionless_wave_velocity = FloatResult.nonFinite ↔ c.height < 0) ∧
      (c.effective_diffusion_coefficient = FloatResult.nonFinite ↔
        (c.drag_coefficient ≤ 0 ∨ c.height = 0)) ∧
      c.frictionless_wave_velocity ≠ FloatResult.raised ∧
      c.effective_diffusion_coefficient ≠ FloatResult.raised ∧
      (c.height ≠ 0 → c.friction_factor =
        FloatResult.val ((c.drag_coefficient / c.height) *
          (8 * c.tidal_velocity_amplitude / (3 * π))))) ∧
    (∀ t : TideFrequency, t.period_h < 0 →
      t.angular_frequency = 2 * π / (t.period_h * 3600) ∧
      t.angular_frequency < 0) := by
  have hg : (0 : ℝ) < g := by norm_num [g]
  constructor
  · intro c
    have key : g * c.height < 0 ↔ c.height < 0 := by
      constructor
      · intro h
        by_contra h'
        push_neg at h'
        nlinarith [mul_nonneg hg.le h']
      · intro h
        nlinarith [h]
    refine ⟨?_, ?_, ?_, ?_, ?_, ?_⟩
    · unfold ChannelProperties.friction_factor
      by_cases h : c.height = 0 <;> simp [h]
    · unfold ChannelProperties.frictionless_wave_velocity
      by_cases h : g * c.height < 0
      · simp only [if_pos h]
        simpa using key.mp h
      · simp only [if_neg h]
        constructor
        · intro hbad
          exact absurd hbad (by simp)
        · intro hh
          exact absurd (key.mpr hh) h
    · unfold ChannelProperties.effective_diffusion_coefficient
      by_cases h1 : c.drag_coefficient < 0
      · simp only [if_pos h1]
        simpa using Or.inl h1.le
      · by_cases h2 : Real.sqrt c.drag_coefficient * c.height = 0
        · simp only [if_neg h1, if_pos h2]
          constructor
          · intro _
            rcases mul_eq_zero.mp h2 with hs | hh
            · exact Or.inl (Real.sqrt_eq_zero'.mp hs)
            · exact Or.inr hh
          · intro _
            trivial
        · simp only [if_neg h1, if_neg h2]
          constructor
          · intro hbad
            exact absurd hbad (by simp)
          · rintro (hd | hh)
            · have hd0 : c.drag_coefficient = 0 := le_antisymm hd (not_lt.mp h1)
              exact absurd (by rw [hd0, Real.sqrt_zero, zero_mul]) h2
            · exact absurd (by rw [hh, mul_zero]) h2
    · unfold ChannelProperties.frictionless_wave_velocity
      split_ifs <;> simp
    · unfold ChannelProperties.effective_diffusion_coefficient
      split_ifs <;> simp
    · intro h
      unfold ChannelProperties.friction_factor
      rw [if_neg h]
  · intro t h
    have hne : t.period_h ≠ 0 := ne_of_lt h
    have hval : t.angular_frequency = 2 * π / (t.period_h * 3600) := by
      unfold TideFrequency.angular_frequency
      rw [if_neg hne]
      ring
    refine ⟨hval, ?_⟩
    rw [hval]
    apply div_neg_of_pos_of_neg
    · have := Real.pi_pos
      linarith
    · linarith

/-- Witness for C8 (amended): height `-1` makes the wave velocity
non-finite, height `1` gives `friction_factor` a finite value, and period
`-1` gives a negative (finite) angular frequency. -/
theorem claim8_hazards_amended_witness :
    (ChannelProperties.mk 1 (-1) 1 1 1 1 0.0125).frictionless_wave_velocity =
      FloatResult.nonFinite ∧
    (ChannelProperties.mk 1 1 1 1 1 1 0.0125).friction_factor =
      FloatResult.val ((1 / 1) * (8 * 1 / (3 * π))) ∧
    (TideFrequency.mk (-1) 1 0).angular_frequency < 0 :=
  ⟨((claim8_hazards_amended.1 (ChannelProperties.mk 1 (-1) 1 1 1 1 0.0125)).2.1).mpr
      (by norm_num),
   (claim8_hazards_amended.1 (ChannelProperties.mk 1 1 1 1 1 1 0.0125)).2.2.2.2.2
      (by norm_num),
   (claim8_hazards_amended.2 (TideFrequency.mk (-1) 1 0) (by norm_num)).2⟩

/-- Reading `complex_amplitude` through the `cached_property` cell leaves
the dataclass fields untouched. -/
lemma readComplexAmplitude_data (o : TideObj) :
    o.readComplexAmplitude.2.data = o.data := by
  cases hca : o.cache.ca <;> simp [TideObj.readComplexAmplitude, hca]

/-- Reading `angular_frequency` through the `cached_property` cell leaves
the dataclass fields untouched. -/
lemma readAngularFrequency_data (o : TideObj) :
    o.readAngularFrequency.2.data = o.data := by
  cases haf : o.cache.af <;> simp [TideObj.readAngularFrequency, haf]

/-- Reading `frequency` through the `cached_property` cell leaves the
dataclass fields untouched. -/
lemma readFrequency_data (o : TideObj) :
    o.readFrequency.2.data = o.data := by
  cases hfr : o.cache.fr <;> simp [TideObj.readFrequency, hfr]

/-- Comparison `dataclassEq` only looks at the dataclass fields. -/
lemma dataclassEq_congr_left {x y : TideObj} (h : x.data = y.data)
    (b : TideObj) : dataclassEq x b ↔ dataclassEq y b := by
  unfold dataclassEq
  rw [h]

/-- Comparison `dataclassEq` only looks at the dataclass fields (right argument). -/
lemma dataclassEq_congr_right {x y : TideObj} (h : x.data = y.data)
    (a : TideObj) : dataclassEq a x ↔ dataclassEq a y := by
  unfold dataclassEq
  rw [h]

/-- Claim C9: two `TideFrequency` objects compare equal exactly when their
three dataclass fields agree, and this comparison is unchanged by accessing
any of the cached derived properties on either operand (the memoisation
cells are not dataclass fields). -/
theorem claim9_field_equality (a b : TideObj) :
    (dataclassEq a b ↔
      (a.data.period_h = b.data.period_h ∧
        a.data.amplitude = b.data.amplitude ∧
        a.data.phase = b.data.phase)) ∧
    (dataclassEq a.readComplexAmplitude.2 b ↔ dataclassEq a b) ∧
    (dataclassEq a b.readComplexAmplitude.2 ↔ dataclassEq a b) ∧
    (dataclassEq a.readAngularFrequency.2 b ↔ dataclassEq a b) ∧
    (dataclassEq a b.readAngularFrequency.2 ↔ dataclassEq a b) ∧
    (dataclassEq a.readFrequency.2 b ↔ dataclassEq a b) ∧
    (dataclassEq a b.readFrequency.2 ↔ dataclassEq a b) :=
  ⟨by simp [dataclassEq, Prod.ext_iff],
   dataclassEq_congr_left (readComplexAmplitude_data a) b,
   dataclassEq_congr_right (readComplexAmplitude_data b) a,
   dataclassEq_congr_left (readAngularFrequency_data a) b,
   dataclassEq_congr_right (readAngularFrequency_data b) a,
   dataclassEq_congr_left (readFrequency_data a) b,
   dataclassEq_congr_right (readFrequency_data b) a⟩
